import Mathlib

/-!
Shallow embedding of the `goresult` Go library: a generic success-or-failure
container (`Result`) and an optional-value container (`Option`), each present
in the repository in two historical variants:

* variant V1 — the struct-based direct-field version (`result.go`,
  first half of `option.go`): exported structs `Result[T]`/`Option[T]`;
* variant V2 — the interface-polymorphic version (`part_001`, second half of
  `option.go`): interfaces `Result[T]`/`Option[T]` backed by hidden
  implementation structs `result[T]`/`option[T]`.

Modelling conventions:

* Go's nilable `error` interface is the type `GoError` (`nil` or a concrete
  error value `GoErr`); a `GoErr` is either the result of
  `errors.New`/`fmt.Errorf` (an `*errors.errorString`, carrying its text) or
  an arbitrary other implementation of the `error` interface, carrying its
  dynamic type name, an identity tag (distinct native errors with the same
  text stay distinct, mirroring Go reference equality) and its description.
* Go's `interface\x7b\x7d` (`any`) arguments are the type `GoAny`; `formatV`
  is `fmt.Sprintf` with verb `%v` on such a value (`%v` prints an error's
  `Error()` text, a string verbatim, an int in decimal, `<nil>` for a nil
  interface).
* `reflect.TypeOf` yields a `TypeRef`: `TypeRef.nil` when the argument is a
  nil interface value (documented behaviour of `reflect.TypeOf`), otherwise
  the dynamic type's name. Calling `.String()` on the nil reference is a
  runtime nil-pointer-dereference fault.
* Panics are reified: a function that can panic returns an `Outcome`, whose
  `panics` constructor records the panic payload (`Panic.errorf` for
  `panic(fmt.Errorf(...))`, `Panic.str` for `panic("...")`, `Panic.nilDeref`
  for the runtime nil-dereference fault).
* Go callbacks whose invocations the spec counts are embedded effectfully:
  a callback of Go type `func(T)` becomes `T → σ → σ` over an arbitrary
  state type `σ`, and the method threads the state; an invocation of the
  callback is exactly one application of the function to the state.
* The Go zero value of the payload type `T` is `default` of an `Inhabited`
  instance.
-/

namespace GoResult

/-- Go concrete (non-nil) values implementing the `error` interface: either
the `*errors.errorString` produced by `errors.New` / `fmt.Errorf` (no `%w`),
or any other implementation, with its dynamic type name, an identity tag and
its description. -/
inductive GoErr where
  | errorString (s : String)
  | custom (typeName : String) (id : Nat) (desc : String)
deriving DecidableEq

/-- Go: the `Error() string` method of the `error` interface. -/
def GoErr.Error : GoErr → String
  | .errorString s => s
  | .custom _ _ d => d

/-- Go's nilable `error` interface type: `nil` or a concrete error value. -/
inductive GoError where
  | nil
  | val (e : GoErr)
deriving DecidableEq

/-- Go: comparison `err == nil` on an `error` interface value. -/
def GoError.isNil : GoError → Bool
  | .nil => true
  | .val _ => false

/-- Go values of static type `interface\x7b\x7d` (`any`), as passed to the
failure normalizer: an error value, a string, an int, a bool, the nil
interface, or any other value carrying its dynamic type name and its `%v`
formatting. -/
inductive GoAny where
  | err (e : GoErr)
  | str (s : String)
  | int (n : Int)
  | boolean (b : Bool)
  | nil
  | other (typeName : String) (rep : String)
deriving DecidableEq

/-- Go: `fmt.Sprintf` with verb `%v` applied to an `interface\x7b\x7d` value:
an error prints its `Error()` text, a string prints verbatim, an int in
decimal, a bool as `true`/`false`, a nil interface as `<nil>`. -/
def formatV : GoAny → String
  | .err e => e.Error
  | .str s => s
  | .int n => toString n
  | .boolean b => if b then "true" else "false"
  | .nil => "<nil>"
  | .other _ rep => rep

/-- Go (shared helper file): `covertError(err interface\x7b\x7d) error` —
a type switch: `case error:` returns `err` unchanged (a nil interface does
NOT match `case error`, so it falls to the default branch); `default:`
returns `fmt.Errorf("%v", err)`, i.e. an `errorString` holding the `%v`
formatting of the input. -/
def covertError (err : GoAny) : GoErr :=
  match err with
  | .err e => e
  | _ => .errorString (formatV err)

/-- Go: the (nilable) result of `reflect.TypeOf`: `nil` when the argument is
a nil interface value, otherwise a reference to the dynamic type, whose
`String()` method yields the type's name. -/
inductive TypeRef where
  | nil
  | mk (name : String)
deriving DecidableEq

/-- Go: `reflect.TypeOf` on a value of static type `interface\x7b\x7d`
(`any`): `nil` for the nil interface value; otherwise the dynamic type
(`string`, `int`, `bool`, `*errors.errorString` for `errors.New` /
`fmt.Errorf` errors, or the recorded dynamic type name). -/
def GoAny.typeOf : GoAny → TypeRef
  | .nil => .nil
  | .str _ => .mk "string"
  | .int _ => .mk "int"
  | .boolean _ => .mk "bool"
  | .err (.errorString _) => .mk "*errors.errorString"
  | .err (.custom t _ _) => .mk t
  | .other t _ => .mk t

/-- A reified Go panic payload: `errorf` for `panic(fmt.Errorf(...))`,
`str` for `panic("...")` with a plain string, `nilDeref` for the runtime
fault `invalid memory address or nil pointer dereference`. -/
inductive Panic where
  | errorf (s : String)
  | str (s : String)
  | nilDeref
deriving DecidableEq

/-- True when the panic payload is a constructed `fmt.Errorf` message (as
opposed to a plain-string panic or a runtime fault). -/
def Panic.isErrorf : Panic → Bool
  | .errorf _ => true
  | _ => false

/-- Outcome of running a Go function that can panic: a normal return or a
panic with its payload. -/
inductive Outcome (A : Type) where
  | ret (a : A)
  | panics (p : Panic)
deriving DecidableEq

/-- Two outcomes agree up to the text of a panic payload: equal returned
values, or both panicking (payloads unconstrained). Used to compare the two
historical variants, whose fixed library-generated panic messages differ in
capitalisation only. -/
def Outcome.agrees {A : Type} : Outcome A → Outcome A → Prop
  | .ret a, .ret b => a = b
  | .panics _, .panics _ => True
  | _, _ => False

/-- Go (both variants, identical code):
`unwrapErrorFailed[E error](msg string, err E)` —
`panic(fmt.Errorf("%s: %s", msg, err.Error()))`. -/
def unwrapErrorFailed (msg : String) (err : GoErr) : Panic :=
  .errorf (msg ++ ": " ++ err.Error)

/-- Go (both variants, identical code):
`unwrapValueFailed[T any](msg string, value T)` —
`types := reflect.TypeOf(value).String(); panic(fmt.Errorf("%s: %s", msg, types))`.
`reflect.TypeOf` is passed in as `typeOf` (it depends on the instantiation
of `T`); when it yields the nil reference, the `.String()` call is a runtime
nil-pointer dereference, so the function panics with that fault instead of
the constructed message. -/
def unwrapValueFailed {T : Type} (typeOf : T → TypeRef) (msg : String) (value : T) : Panic :=
  match typeOf value with
  | .mk t => .errorf (msg ++ ": " ++ t)
  | .nil => .nilDeref

namespace V1

/-- Go (`result.go`): `type Result[T any] struct \x7b Value T; Error error \x7d`. -/
structure Result (T : Type) where
  Value : T
  Error : GoError
deriving DecidableEq

/-- Go (`result.go`): `Ok(value T)` — `&Result[T]\x7bValue: value, Error: nil\x7d`. -/
def Ok {T : Type} (value : T) : Result T :=
  ⟨value, .nil⟩

/-- Go (`result.go`): `Error[T any](err interface\x7b\x7d)` —
`&Result[T]\x7bError: covertError(err)\x7d`; the `Value` field is the zero
value of `T`. -/
def Error (T : Type) [Inhabited T] (err : GoAny) : Result T :=
  ⟨default, .val (covertError err)⟩

/-- Go (`result.go`): `IsOk` — `r.Error == nil`. -/
def Result.IsOk {T : Type} (r : Result T) : Bool :=
  r.Error.isNil

/-- Go (`result.go`): `IsError` — `r.Error != nil`. -/
def Result.IsError {T : Type} (r : Result T) : Bool :=
  !r.Error.isNil

/-- Go (`result.go`): `Except(msg string) T` — if `r.IsError()` then
`unwrapErrorFailed(msg, r.Error)` (which panics); otherwise return `r.Value`. -/
def Result.Except {T : Type} (r : Result T) (msg : String) : Outcome T :=
  match r.Error with
  | .val e => .panics (unwrapErrorFailed msg e)
  | .nil => .ret r.Value

/-- Go (`result.go`): `ExceptError(msg string) error` — if `r.IsOk()` then
`unwrapValueFailed(msg, r.Value)` (which panics); otherwise return `r.Error`. -/
def Result.ExceptError {T : Type} (typeOf : T → TypeRef) (r : Result T) (msg : String) :
    Outcome GoError :=
  if r.IsOk then .panics (unwrapValueFailed typeOf msg r.Value)
  else .ret r.Error

/-- Go (`result.go`): `Inspect(f func(T)) *Result[T]` — if `r.IsOk()` then
`f(r.Value)`; return `r`. Effectful embedding: the state after the call is
paired with the returned container. -/
def Result.Inspect {T σ : Type} (r : Result T) (f : T → σ → σ) (s : σ) : σ × Result T :=
  if r.IsOk then (f r.Value s, r) else (s, r)

/-- Go (`result.go`): `InspectError(f func(error)) *Result[T]` — if
`r.IsError()` then `f(r.Error)`; return `r`. -/
def Result.InspectError {T σ : Type} (r : Result T) (f : GoError → σ → σ) (s : σ) :
    σ × Result T :=
  if r.IsError then (f r.Error s, r) else (s, r)

/-- Go (`result.go`): `Unwrap` — `r.Except("called ` + "`Result.Unwrap()`" +
` on an ` + "`Error`" + ` value")`. -/
def Result.Unwrap {T : Type} (r : Result T) : Outcome T :=
  r.Except "called `Result.Unwrap()` on an `Error` value"

/-- Go (`result.go`): `UnwrapError` — `r.ExceptError("called ... on an ... value")`. -/
def Result.UnwrapError {T : Type} (typeOf : T → TypeRef) (r : Result T) : Outcome GoError :=
  Result.ExceptError typeOf r "called `Result.UnwrapError()` on an `Value` value"

/-- Go (`result.go`): `UnwrapOr(defaults T)` — value if `IsOk`, else `defaults`. -/
def Result.UnwrapOr {T : Type} (r : Result T) (defaults : T) : T :=
  if r.IsOk then r.Value else defaults

/-- Go (`result.go`): `UnwrapOrDefault` — value if `IsOk`, else
`Result[T]\x7b\x7d.Value`, the zero value of `T`. -/
def Result.UnwrapOrDefault {T : Type} [Inhabited T] (r : Result T) : T :=
  if r.IsOk then r.Value else (default : T)

/-- Go (`result.go`): `UnwrapOrElse(f func() T)` — value if `IsOk`, else
`f()`. Effectful embedding: `f` threads a state, one application of `f` is
one invocation. -/
def Result.UnwrapOrElse {T σ : Type} (r : Result T) (f : σ → σ × T) (s : σ) : σ × T :=
  if r.IsOk then (s, r.Value) else f s

/-- Go (`option.go`, struct half): `type Option[T any] struct \x7b Value T; none bool \x7d`. -/
structure Option (T : Type) where
  Value : T
  none : Bool
deriving DecidableEq

/-- Go (`option.go`): `Some(value T)` — `&Option[T]\x7bValue: value, none: false\x7d`. -/
def Some {T : Type} (value : T) : Option T :=
  ⟨value, false⟩

/-- Go (`option.go`): `None[T any]()` — `&Option[T]\x7bnone: true\x7d`; the
`Value` field is the zero value of `T`. -/
def None (T : Type) [Inhabited T] : Option T :=
  ⟨default, true⟩

/-- Go (`result.go`): `Option()` — `Some(r.Value)` if `IsOk`, else `None[T]()`. -/
def Result.Option {T : Type} [Inhabited T] (r : Result T) : Option T :=
  if r.IsOk then Some r.Value else None T

/-- Go (`option.go`): `IsSome` — `!opt.none`. -/
def Option.IsSome {T : Type} (o : Option T) : Bool :=
  !o.none

/-- Go (`option.go`): `IsNone` — `opt.none`. -/
def Option.IsNone {T : Type} (o : Option T) : Bool :=
  o.none

/-- Go (`option.go`): `Unwrap` — panics with the plain string
`called ... value` if `IsNone`, else returns the value. -/
def Option.Unwrap {T : Type} (o : Option T) : Outcome T :=
  if o.IsNone then .panics (.str "called `Option.Unwrap()` on a `nil` value")
  else .ret o.Value

/-- Go (`option.go`): `UnwrapOr(defaults T)` — `defaults` if `IsNone`, else value. -/
def Option.UnwrapOr {T : Type} (o : Option T) (defaults : T) : T :=
  if o.IsNone then defaults else o.Value

/-- Go (`option.go`): `UnwrapOrElse(f func() T)` — `f()` if `IsNone`, else value. -/
def Option.UnwrapOrElse {T σ : Type} (o : Option T) (f : σ → σ × T) (s : σ) : σ × T :=
  if o.IsNone then f s else (s, o.Value)

/-- Go (`option.go`): `UnwrapOrDefault` — `None[T]().Value` (the zero value)
if `IsNone`, else value. -/
def Option.UnwrapOrDefault {T : Type} [Inhabited T] (o : Option T) : T :=
  if o.IsNone then (None T).Value else o.Value

/-- Go (`option.go`): `Inspect(f func(T))` — if `IsSome` then `f(opt.Value)`;
return `opt`. -/
def Option.Inspect {T σ : Type} (o : Option T) (f : T → σ → σ) (s : σ) : σ × Option T :=
  if o.IsSome then (f o.Value s, o) else (s, o)

/-- Go (`option.go`): `OkOr(err interface\x7b\x7d)` — `Ok[T](opt.Value)` if
`IsSome`, else `Error[T](err)`. -/
def Option.OkOr {T : Type} [Inhabited T] (o : Option T) (err : GoAny) : Result T :=
  if o.IsSome then Ok o.Value else Error T err

/-- Go (`option.go`): `OkOrElse(f func() error)` — `Ok[T](opt.Value)` if
`IsSome`, else `Error[T](f())`. The callback yields a Go `error` (possibly
nil), which is passed to `Error[T]` as an `interface\x7b\x7d` value. -/
def Option.OkOrElse {T σ : Type} [Inhabited T] (o : Option T) (f : σ → σ × GoError) (s : σ) :
    σ × Result T :=
  if o.IsSome then (s, Ok o.Value)
  else
    match f s with
    | (s2, .nil) => (s2, Error T GoAny.nil)
    | (s2, .val e) => (s2, Error T (GoAny.err e))

/-- Go (`option.go`): `Filter(predicate func(value T) bool)` — if
`opt.IsSome() && predicate(opt.Value)` (short-circuit: the predicate runs
only when `IsSome`) return `opt`, else return `None[T]()`. -/
def Option.Filter {T σ : Type} [Inhabited T] (o : Option T) (p : T → σ → σ × Bool) (s : σ) :
    σ × Option T :=
  if o.IsSome then
    match p o.Value s with
    | (s2, true) => (s2, o)
    | (s2, false) => (s2, None T)
  else (s, None T)

end V1

namespace V2

/-- Go (`part_001`): the hidden implementation struct behind the `Result[T]`
interface: `type result[T any] struct \x7b value T; error error \x7d`. The
interface is its method set; the embedding works on the struct directly. -/
structure result (T : Type) where
  value : T
  error : GoError
deriving DecidableEq

/-- Go (`part_001`): `Ok(value T) Result[T]` —
`&result[T]\x7bvalue: value, error: nil\x7d`. -/
def Ok {T : Type} (value : T) : result T :=
  ⟨value, .nil⟩

/-- Go (`part_001`): `Error[T any](err interface\x7b\x7d) Result[T]` —
`&result[T]\x7berror: covertError(err)\x7d`; `value` is the zero value of `T`. -/
def Error (T : Type) [Inhabited T] (err : GoAny) : result T :=
  ⟨default, .val (covertError err)⟩

/-- Go (`part_001`): method `Value()` — returns `r.value`. -/
def result.Value {T : Type} (r : result T) : T :=
  r.value

/-- Go (`part_001`): method `Error()` — returns `r.error`. -/
def result.Error {T : Type} (r : result T) : GoError :=
  r.error

/-- Go (`part_001`): `IsOk` — `r.error == nil`. -/
def result.IsOk {T : Type} (r : result T) : Bool :=
  r.error.isNil

/-- Go (`part_001`): `IsError` — `r.error != nil`. -/
def result.IsError {T : Type} (r : result T) : Bool :=
  !r.error.isNil

/-- Go (`part_001`): `Except(msg string) T` — if `r.IsError()` then
`unwrapErrorFailed(msg, r.error)` (which panics); otherwise return `r.value`. -/
def result.Except {T : Type} (r : result T) (msg : String) : Outcome T :=
  match r.error with
  | .val e => .panics (unwrapErrorFailed msg e)
  | .nil => .ret r.value

/-- Go (`part_001`): `ExceptError(msg string) error` — if `r.IsOk()` then
`unwrapValueFailed(msg, r.value)` (which panics); otherwise return `r.error`. -/
def result.ExceptError {T : Type} (typeOf : T → TypeRef) (r : result T) (msg : String) :
    Outcome GoError :=
  if r.IsOk then .panics (unwrapValueFailed typeOf msg r.value)
  else .ret r.error

/-- Go (`part_001`): `Inspect(f func(T)) Result[T]` — if `r.IsOk()` then
`f(r.value)`; return `r`. -/
def result.Inspect {T σ : Type} (r : result T) (f : T → σ → σ) (s : σ) : σ × result T :=
  if r.IsOk then (f r.value s, r) else (s, r)

/-- Go (`part_001`): `InspectError(f func(error)) Result[T]` — if
`r.IsError()` then `f(r.error)`; return `r`. -/
def result.InspectError {T σ : Type} (r : result T) (f : GoError → σ → σ) (s : σ) :
    σ × result T :=
  if r.IsError then (f r.error s, r) else (s, r)

/-- Go (`part_001`): `Unwrap` — `r.Except("called ... on an ... value")`;
the fixed message differs from variant V1 in capitalisation. -/
def result.Unwrap {T : Type} (r : result T) : Outcome T :=
  r.Except "called `result.Unwrap()` on an `error` value"

/-- Go (`part_001`): `UnwrapError` — `r.ExceptError("called ... on an ... value")`. -/
def result.UnwrapError {T : Type} (typeOf : T → TypeRef) (r : result T) : Outcome GoError :=
  result.ExceptError typeOf r "called `result.UnwrapError()` on an `value` value"

/-- Go (`part_001`): `UnwrapOr(defaults T)` — value if `IsOk`, else `defaults`. -/
def result.UnwrapOr {T : Type} (r : result T) (defaults : T) : T :=
  if r.IsOk then r.value else defaults

/-- Go (`part_001`): `UnwrapOrDefault` — value if `IsOk`, else
`result[T]\x7b\x7d.value`, the zero value of `T`. -/
def result.UnwrapOrDefault {T : Type} [Inhabited T] (r : result T) : T :=
  if r.IsOk then r.value else (default : T)

/-- Go (`part_001`): `UnwrapOrElse(f func() T)` — value if `IsOk`, else `f()`. -/
def result.UnwrapOrElse {T σ : Type} (r : result T) (f : σ → σ × T) (s : σ) : σ × T :=
  if r.IsOk then (s, r.value) else f s

/-- Go (`option.go`, interface half): the hidden implementation struct behind
the `Option[T]` interface: `type option[T any] struct \x7b value T; none bool \x7d`. -/
structure option (T : Type) where
  value : T
  none : Bool
deriving DecidableEq

/-- Go (`option.go`, interface half): `Some(value T) Option[T]` —
`&option[T]\x7bvalue: value, none: false\x7d`. -/
def Some {T : Type} (value : T) : option T :=
  ⟨value, false⟩

/-- Go (`option.go`, interface half): `None[T any]() Option[T]` —
`&option[T]\x7bnone: true\x7d`; `value` is the zero value of `T`. -/
def None (T : Type) [Inhabited T] : option T :=
  ⟨default, true⟩

/-- Go (`part_001`): `Option()` — `Some(r.value)` if `IsOk`, else `None[T]()`. -/
def result.Option {T : Type} [Inhabited T] (r : result T) : option T :=
  if r.IsOk then Some r.value else None T

/-- Go (`option.go`, interface half): method `Value()` — returns `opt.value`. -/
def option.Value {T : Type} (o : option T) : T :=
  o.value

/-- Go (`option.go`, interface half): `IsSome` — `!opt.none`. -/
def option.IsSome {T : Type} (o : option T) : Bool :=
  !o.none

/-- Go (`option.go`, interface half): `IsNone` — `opt.none`. -/
def option.IsNone {T : Type} (o : option T) : Bool :=
  o.none

/-- Go (`option.go`, interface half): `Unwrap` — panics with the plain string
`called ... value` if `IsNone`, else returns the value; the fixed message
differs from variant V1 in capitalisation. -/
def option.Unwrap {T : Type} (o : option T) : Outcome T :=
  if o.IsNone then .panics (.str "called `option.Unwrap()` on a `nil` value")
  else .ret o.value

/-- Go (`option.go`, interface half): `UnwrapOr(defaults T)` — `defaults` if
`IsNone`, else value. -/
def option.UnwrapOr {T : Type} (o : option T) (defaults : T) : T :=
  if o.IsNone then defaults else o.value

/-- Go (`option.go`, interface half): `UnwrapOrElse(f func() T)` — `f()` if
`IsNone`, else value. -/
def option.UnwrapOrElse {T σ : Type} (o : option T) (f : σ → σ × T) (s : σ) : σ × T :=
  if o.IsNone then f s else (s, o.value)

/-- Go (`option.go`, interface half): `UnwrapOrDefault` —
`None[T]().Value()` (the zero value) if `IsNone`, else value. -/
def option.UnwrapOrDefault {T : Type} [Inhabited T] (o : option T) : T :=
  if o.IsNone then (None T).Value else o.value

/-- Go (`option.go`, interface half): `Inspect(f func(T))` — if `IsSome`
then `f(opt.value)`; return `opt`. -/
def option.Inspect {T σ : Type} (o : option T) (f : T → σ → σ) (s : σ) : σ × option T :=
  if o.IsSome then (f o.value s, o) else (s, o)

/-- Go (`option.go`, interface half): `OkOr(err interface\x7b\x7d)` —
`Ok[T](opt.value)` if `IsSome`, else `Error[T](err)`. -/
def option.OkOr {T : Type} [Inhabited T] (o : option T) (err : GoAny) : result T :=
  if o.IsSome then Ok o.value else Error T err

/-- Go (`option.go`, interface half): `OkOrElse(f func() error)` —
`Ok[T](opt.value)` if `IsSome`, else `Error[T](f())`. -/
def option.OkOrElse {T σ : Type} [Inhabited T] (o : option T) (f : σ → σ × GoError) (s : σ) :
    σ × result T :=
  if o.IsSome then (s, Ok o.value)
  else
    match f s with
    | (s2, .nil) => (s2, Error T GoAny.nil)
    | (s2, .val e) => (s2, Error T (GoAny.err e))

/-- Go (`option.go`, interface half): `Filter(predicate func(value T) bool)`
— if `opt.IsSome() && predicate(opt.value)` (short-circuit) return `opt`,
else return `None[T]()`. -/
def option.Filter {T σ : Type} [Inhabited T] (o : option T) (p : T → σ → σ × Bool) (s : σ) :
    σ × option T :=
  if o.IsSome then
    match p o.value s with
    | (s2, true) => (s2, o)
    | (s2, false) => (s2, None T)
  else (s, None T)

end V2

/-- Correspondence between the two historical variants: a V2 hidden
implementation struct `result[T]` and the V1 exported struct `Result[T]`
carry the same fields. -/
def r21 {T : Type} (r : V2.result T) : V1.Result T :=
  ⟨r.value, r.error⟩

/-- Correspondence between the two historical variants on the optional
container. -/
def o21 {T : Type} (o : V2.option T) : V1.Option T :=
  ⟨o.value, o.none⟩

/-- Go: the zero value of an interface-typed variable (such as `any`) is the
nil interface. -/
instance : Inhabited GoAny := ⟨GoAny.nil⟩

/-- C1: for every payload type T and value v, `Ok(v)` satisfies all four
observer postconditions — `IsOk()` is true, `IsError()` is false, `Value()`
is v, `Error()` is nil — in both historical variants. -/
theorem c1_ok_observers (T : Type) (v : T) :
    (V2.Ok v).IsOk = true ∧ (V2.Ok v).IsError = false ∧
    (V2.Ok v).Value = v ∧ (V2.Ok v).Error = GoError.nil ∧
    (V1.Ok v).IsOk = true ∧ (V1.Ok v).IsError = false ∧
    (V1.Ok v).Value = v ∧ (V1.Ok v).Error = GoError.nil :=
  ⟨rfl, rfl, rfl, rfl, rfl, rfl, rfl, rfl⟩

/-- C2: the conversions between the two containers round-trip
state-correctly: `Ok(v).Option() = Some(v)`, `Error[T](d).Option() =
None[T]()`, `Some(v).OkOr(d) = Ok(v)` and `None[T]().OkOr(d) =
Error[T](d)`. -/
theorem c2_round_trips (T : Type) [Inhabited T] (v : T) (d : GoAny) :
    (V1.Ok v).Option = V1.Some v ∧
    (V1.Error T d).Option = V1.None T ∧
    (V1.Some v).OkOr d = V1.Ok v ∧
    (V1.None T).OkOr d = V1.Error T d :=
  ⟨rfl, rfl, rfl, rfl⟩

/-- C3: `Except(msg)` returns the held value in the success state, and in
the failure state panics with a message combining `msg` and the failure
descriptor's description (`msg ++ ": " ++ description`). -/
theorem c3_except (T : Type) [Inhabited T] (v : T) (d : GoAny) (msg : String) :
    (V1.Ok v).Except msg = Outcome.ret v ∧
    (V1.Error T d).Except msg =
      Outcome.panics (Panic.errorf (msg ++ ": " ++ (covertError d).Error)) :=
  ⟨rfl, rfl⟩

/-- C4, evaluated at the failing input: `ExceptError` does return the
descriptor in the failure state, and in the success state it panics with
`msg ++ ": " ++ typename` when the held value has a dynamic type; but for a
nil interface payload (`Ok[any](nil)`) `reflect.TypeOf` yields nil, so the
`.String()` call inside `unwrapValueFailed` is a runtime nil-pointer
dereference: the panic carries no constructed message at all, contradicting
the claimed message for every held value. -/
theorem c4_nil_payload_failing :
    (V1.Ok GoAny.nil).ExceptError GoAny.typeOf "m" = Outcome.panics Panic.nilDeref ∧
    Panic.nilDeref.isErrorf = false ∧
    (V1.Ok (GoAny.str "x")).ExceptError GoAny.typeOf "m" =
      Outcome.panics (Panic.errorf "m: string") ∧
    (V1.Error GoAny (GoAny.str "boom")).ExceptError GoAny.typeOf "m" =
      Outcome.ret (GoError.val (GoErr.errorString "boom")) :=
  ⟨rfl, rfl, rfl, rfl⟩

/-- C5: `UnwrapOrElse(f)` returns the held value without invoking `f` in the
success/present state (the threaded state is untouched, the call counter
stays at 0), and invokes `f` exactly once and returns its result in the
failure/absent state (the result is one application of `f`, the call counter
reaches exactly 1), for both `Result` and `Option`. -/
theorem c5_unwrap_or_else (T σ : Type) [Inhabited T] (v w : T) (d : GoAny)
    (f : σ → σ × T) (s : σ) :
    (V1.Ok v).UnwrapOrElse f s = (s, v) ∧
    (V1.Error T d).UnwrapOrElse f s = f s ∧
    (V1.Some v).UnwrapOrElse f s = (s, v) ∧
    (V1.None T).UnwrapOrElse f s = f s ∧
    ((V1.Ok v).UnwrapOrElse (fun n : Nat => (n + 1, w)) 0).1 = 0 ∧
    ((V1.Error T d).UnwrapOrElse (fun n : Nat => (n + 1, w)) 0).1 = 1 ∧
    ((V1.Some v).UnwrapOrElse (fun n : Nat => (n + 1, w)) 0).1 = 0 ∧
    ((V1.None T).UnwrapOrElse (fun n : Nat => (n + 1, w)) 0).1 = 1 :=
  ⟨rfl, rfl, rfl, rfl, rfl, rfl, rfl, rfl⟩

/-- C6: `Filter(p)` returns the option itself unchanged when it is present
and the predicate accepts the value, returns `None` when the predicate
rejects it, and on an absent option returns `None` without invoking the
predicate (the threaded state is untouched). -/
theorem c6_filter (T σ : Type) [Inhabited T] (v : T) (p : T → σ → σ × Bool) (s : σ) :
    (∀ s2 : σ, p v s = (s2, true) → (V1.Some v).Filter p s = (s2, V1.Some v)) ∧
    (∀ s2 : σ, p v s = (s2, false) → (V1.Some v).Filter p s = (s2, V1.None T)) ∧
    (V1.None T).Filter p s = (s, V1.None T) := by
  refine ⟨?_, ?_, rfl⟩ <;> intro s2 h <;>
    simp [V1.Option.Filter, V1.Some, V1.Option.IsSome, h]

/-- C6 witness: the spec's own example — `Some(5).Filter(x == 5)` keeps the
option and invokes the predicate exactly once. -/
theorem c6_filter_witness :
    ((fun x n => (n + 1, x == 5) : Int → Nat → Nat × Bool)) 5 0 = (1, true) ∧
    (V1.Some (5 : Int)).Filter (fun x n => (n + 1, x == 5)) 0 = (1, V1.Some 5) :=
  ⟨rfl, (c6_filter Int Nat 5 (fun x n => (n + 1, x == 5)) 0).1 1 rfl⟩

/-- C7: the failure normalizer `covertError` is the identity on inputs that
already implement the `error` interface, and on every other input produces
an `errorString` descriptor whose description is the input's `%v`
formatting; normalizing the plain string "boom" gives description exactly
"boom". -/
theorem c7_covert_error (e : GoErr) (s t rep : String) (n : Int) (b : Bool) :
    covertError (GoAny.err e) = e ∧
    covertError (GoAny.str s) = GoErr.errorString s ∧
    (covertError (GoAny.str s)).Error = s ∧
    covertError (GoAny.int n) = GoErr.errorString (toString n) ∧
    covertError (GoAny.boolean b) = GoErr.errorString (if b then "true" else "false") ∧
    covertError (GoAny.other t rep) = GoErr.errorString rep ∧
    covertError (GoAny.str "boom") = GoErr.errorString "boom" ∧
    (covertError (GoAny.str "boom")).Error = "boom" :=
  ⟨rfl, rfl, rfl, rfl, rfl, rfl, rfl, rfl⟩

/-- C8: `Inspect` and `InspectError` invoke their callback (one state
application, with the held value resp. the descriptor) exactly when the
container is in the matching state, return the very same container in every
case, and calling either twice yields identical observable results. -/
theorem c8_inspect_frame (T σ : Type) [Inhabited T] (r : V1.Result T) (v : T) (d : GoAny)
    (f : T → σ → σ) (g : GoError → σ → σ) (s s2 : σ) :
    (r.Inspect f s).2 = r ∧
    (r.InspectError g s).2 = r ∧
    (r.Inspect f s).2.Inspect f s2 = r.Inspect f s2 ∧
    (r.InspectError g s).2.InspectError g s2 = r.InspectError g s2 ∧
    (V1.Ok v).Inspect f s = (f v s, V1.Ok v) ∧
    (V1.Error T d).Inspect f s = (s, V1.Error T d) ∧
    (V1.Ok v).InspectError g s = (s, V1.Ok v) ∧
    (V1.Error T d).InspectError g s =
      (g (GoError.val (covertError d)) s, V1.Error T d) := by
  obtain ⟨rv, re⟩ := r
  cases re <;> exact ⟨rfl, rfl, rfl, rfl, rfl, rfl, rfl, rfl⟩

/-- C9: normalizing a nil descriptor does not crash — the nil interface does
not match `case error:` in the type switch, so it is formatted by `%v` to
the literal text `<nil>` — and consequently `Error[T](nil)` is a valid
failure-state Result for every T. -/
theorem c9_nil_normalization (T : Type) [Inhabited T] :
    covertError GoAny.nil = GoErr.errorString "<nil>" ∧
    (covertError GoAny.nil).Error = "<nil>" ∧
    (V1.Error T GoAny.nil).IsError = true ∧
    (V1.Error T GoAny.nil).IsOk = false :=
  ⟨rfl, rfl, rfl, rfl⟩

/-- The two variants' Result operations commute with the field-wise
correspondence `r21`: same state tags, same returned values and descriptors,
same callback effects, equal `Except`/`ExceptError` outcomes (their messages
are caller-supplied), and `Unwrap`/`UnwrapError` outcomes agreeing up to the
text of the fixed library-generated panic message. -/
theorem variantAgreeResult (T σ : Type) [Inhabited T] (r2 : V2.result T) (v : T) (d : GoAny)
    (msg : String) (defaults : T) (typeOf : T → TypeRef)
    (f : T → σ → σ) (g : GoError → σ → σ) (fe : σ → σ × T) (s : σ) :
    r21 (V2.Ok v) = V1.Ok v ∧
    r21 (V2.Error T d) = V1.Error T d ∧
    r2.Value = (r21 r2).Value ∧
    r2.Error = (r21 r2).Error ∧
    r2.IsOk = (r21 r2).IsOk ∧
    r2.IsError = (r21 r2).IsError ∧
    r2.Except msg = (r21 r2).Except msg ∧
    V2.result.ExceptError typeOf r2 msg = V1.Result.ExceptError typeOf (r21 r2) msg ∧
    (r2.Inspect f s).1 = ((r21 r2).Inspect f s).1 ∧
    r21 (r2.Inspect f s).2 = ((r21 r2).Inspect f s).2 ∧
    (r2.InspectError g s).1 = ((r21 r2).InspectError g s).1 ∧
    r21 (r2.InspectError g s).2 = ((r21 r2).InspectError g s).2 ∧
    Outcome.agrees r2.Unwrap (r21 r2).Unwrap ∧
    Outcome.agrees (V2.result.UnwrapError typeOf r2) (V1.Result.UnwrapError typeOf (r21 r2)) ∧
    r2.UnwrapOr defaults = (r21 r2).UnwrapOr defaults ∧
    r2.UnwrapOrDefault = (r21 r2).UnwrapOrDefault ∧
    r2.UnwrapOrElse fe s = (r21 r2).UnwrapOrElse fe s ∧
    o21 r2.Option = (r21 r2).Option := by
  obtain ⟨rv, re⟩ := r2
  cases re
  · exact ⟨rfl, rfl, rfl, rfl, rfl, rfl, rfl, rfl, rfl, rfl, rfl, rfl, rfl,
      True.intro, rfl, rfl, rfl, rfl⟩
  · exact ⟨rfl, rfl, rfl, rfl, rfl, rfl, rfl, rfl, rfl, rfl, rfl, rfl,
      True.intro, rfl, rfl, rfl, rfl, rfl⟩

/-- The two variants' Option operations (other than the lazy `OkOrElse` and
`Filter`, handled separately) commute with the field-wise correspondence
`o21`. -/
theorem variantAgreeOption (T σ : Type) [Inhabited T] (o2 : V2.option T) (v : T) (d : GoAny)
    (defaults : T) (f : T → σ → σ) (fe : σ → σ × T) (s : σ) :
    o21 (V2.Some v) = V1.Some v ∧
    o21 (V2.None T) = V1.None T ∧
    o2.Value = (o21 o2).Value ∧
    o2.IsSome = (o21 o2).IsSome ∧
    o2.IsNone = (o21 o2).IsNone ∧
    Outcome.agrees o2.Unwrap (o21 o2).Unwrap ∧
    o2.UnwrapOr defaults = (o21 o2).UnwrapOr defaults ∧
    o2.UnwrapOrElse fe s = (o21 o2).UnwrapOrElse fe s ∧
    o2.UnwrapOrDefault = (o21 o2).UnwrapOrDefault ∧
    (o2.Inspect f s).1 = ((o21 o2).Inspect f s).1 ∧
    o21 (o2.Inspect f s).2 = ((o21 o2).Inspect f s).2 ∧
    r21 (o2.OkOr d) = (o21 o2).OkOr d := by
  obtain ⟨ov, ob⟩ := o2
  cases ob
  · exact ⟨rfl, rfl, rfl, rfl, rfl, rfl, rfl, rfl, rfl, rfl, rfl, rfl⟩
  · exact ⟨rfl, rfl, rfl, rfl, rfl, True.intro, rfl, rfl, rfl, rfl, rfl, rfl⟩

/-- The two variants' lazy `OkOrElse` commutes with the correspondences:
same state effect, corresponding Result. -/
theorem variantAgreeOkOrElse (T σ : Type) [Inhabited T] (o2 : V2.option T)
    (fo : σ → σ × GoError) (s : σ) :
    (o2.OkOrElse fo s).1 = ((o21 o2).OkOrElse fo s).1 ∧
    r21 (o2.OkOrElse fo s).2 = ((o21 o2).OkOrElse fo s).2 := by
  obtain ⟨ov, ob⟩ := o2
  cases ob
  · exact ⟨rfl, rfl⟩
  · rcases h : fo s with ⟨s2, e⟩
    cases e <;>
      simp [V2.option.OkOrElse, V1.Option.OkOrElse, V2.option.IsSome, V1.Option.IsSome,
        o21, r21, h, V2.Error, V1.Error]

/-- The two variants' `Filter` commutes with the correspondence `o21`: same
predicate-invocation effect, corresponding resulting option. -/
theorem variantAgreeFilter (T σ : Type) [Inhabited T] (o2 : V2.option T)
    (p : T → σ → σ × Bool) (s : σ) :
    (o2.Filter p s).1 = ((o21 o2).Filter p s).1 ∧
    o21 (o2.Filter p s).2 = ((o21 o2).Filter p s).2 := by
  obtain ⟨ov, ob⟩ := o2
  cases ob
  · rcases h : p ov s with ⟨s2, b⟩
    cases b <;>
      simp [V2.option.Filter, V1.Option.Filter, V2.option.IsSome, V1.Option.IsSome,
        o21, h, V2.None, V1.None, V2.Some, V1.Some]
  · exact ⟨rfl, rfl⟩

/-- C10: the struct-based variant (V1) and the interface-polymorphic variant
(V2) are observationally equivalent under the field-wise correspondences
`r21`/`o21`: for every payload type, every construction and every operation
of the public contract, the two variants produce the same state tag, the
same returned value or descriptor, the same callback-invocation behaviour,
and panic under the same conditions. -/
theorem c10_variants_equiv (T σ : Type) [Inhabited T] (r2 : V2.result T) (o2 : V2.option T)
    (v : T) (d : GoAny) (msg : String) (defaults : T) (typeOf : T → TypeRef)
    (f : T → σ → σ) (g : GoError → σ → σ) (fe : σ → σ × T) (fo : σ → σ × GoError)
    (p : T → σ → σ × Bool) (s : σ) :
    (r21 (V2.Ok v) = V1.Ok v ∧
     r21 (V2.Error T d) = V1.Error T d ∧
     r2.Value = (r21 r2).Value ∧
     r2.Error = (r21 r2).Error ∧
     r2.IsOk = (r21 r2).IsOk ∧
     r2.IsError = (r21 r2).IsError ∧
     r2.Except msg = (r21 r2).Except msg ∧
     V2.result.ExceptError typeOf r2 msg = V1.Result.ExceptError typeOf (r21 r2) msg ∧
     (r2.Inspect f s).1 = ((r21 r2).Inspect f s).1 ∧
     r21 (r2.Inspect f s).2 = ((r21 r2).Inspect f s).2 ∧
     (r2.InspectError g s).1 = ((r21 r2).InspectError g s).1 ∧
     r21 (r2.InspectError g s).2 = ((r21 r2).InspectError g s).2 ∧
     Outcome.agrees r2.Unwrap (r21 r2).Unwrap ∧
     Outcome.agrees (V2.result.UnwrapError typeOf r2) (V1.Result.UnwrapError typeOf (r21 r2)) ∧
     r2.UnwrapOr defaults = (r21 r2).UnwrapOr defaults ∧
     r2.UnwrapOrDefault = (r21 r2).UnwrapOrDefault ∧
     r2.UnwrapOrElse fe s = (r21 r2).UnwrapOrElse fe s ∧
     o21 r2.Option = (r21 r2).Option) ∧
    (o21 (V2.Some v) = V1.Some v ∧
     o21 (V2.None T) = V1.None T ∧
     o2.Value = (o21 o2).Value ∧
     o2.IsSome = (o21 o2).IsSome ∧
     o2.IsNone = (o21 o2).IsNone ∧
     Outcome.agrees o2.Unwrap (o21 o2).Unwrap ∧
     o2.UnwrapOr defaults = (o21 o2).UnwrapOr defaults ∧
     o2.UnwrapOrElse fe s = (o21 o2).UnwrapOrElse fe s ∧
     o2.UnwrapOrDefault = (o21 o2).UnwrapOrDefault ∧
     (o2.Inspect f s).1 = ((o21 o2).Inspect f s).1 ∧
     o21 (o2.Inspect f s).2 = ((o21 o2).Inspect f s).2 ∧
     r21 (o2.OkOr d) = (o21 o2).OkOr d) ∧
    ((o2.OkOrElse fo s).1 = ((o21 o2).OkOrElse fo s).1 ∧
     r21 (o2.OkOrElse fo s).2 = ((o21 o2).OkOrElse fo s).2) ∧
    ((o2.Filter p s).1 = ((o21 o2).Filter p s).1 ∧
     o21 (o2.Filter p s).2 = ((o21 o2).Filter p s).2) :=
  ⟨variantAgreeResult T σ r2 v d msg defaults typeOf f g fe s,
   variantAgreeOption T σ o2 v d defaults f fe s,
   variantAgreeOkOrElse T σ o2 fo s,
   variantAgreeFilter T σ o2 p s⟩

end GoResult
